import Mathlib

/-!
Shallow embedding of the DCe-cancellation Lambda (repository `ldc`).

The embedding covers, faithfully line by line:
  * `lambada_handler.py` (the "minimal shape" pipeline),
  * `src/dce_cancel/handler.py` and `src/dce_cancel/validation.py`
    (the "envelope shape" pipeline),
  * `src/domain/services/validation.py` together with the dataclass in
    `src/domain/models/payload.py`,
  * the pieces of the Python runtime the handlers rely on: dict/truthiness
    semantics, `json.loads` (modelled for the JSON fragment the service
    exchanges: objects, strings without exotic escapes, integer numbers,
    booleans, null, arrays), `datetime.strptime` for the four formats the
    code tries, aware-datetime comparison and `isoformat`.

AWS I/O (SQS `send_message`, DynamoDB `update_item`/`query`) is modelled by
an explicit effect trace plus outcome oracles, and `datetime.now` /
`uuid.uuid4` by clock/uuid oracles, so every handler is a pure function of
the event, the configuration and the oracles.
-/

/-- A Python/JSON value as the handlers see it (dicts keep insertion order;
keys are strings, as for values produced by `json.loads`). -/
inductive JVal where
  | null
  | bool (b : Bool)
  | num (n : Int)
  | str (s : String)
  | arr (xs : List JVal)
  | obj (fields : List (String × JVal))

namespace JVal

/-- First binding of `k` in an ordered field list.  The lists our
constructors build never repeat keys (`jsonLoads` collapses duplicates the
way CPython does, keeping the last), so this is exactly dict lookup. -/
def lookupField (k : String) : List (String × JVal) → Option JVal
  | [] => none
  | (k', v) :: rest => if k' = k then some v else lookupField k rest

/-- `payload.get(k)`: `none` when the value is not a dict or lacks the key. -/
def get (v : JVal) (k : String) : Option JVal :=
  match v with
  | .obj fs => lookupField k fs
  | _ => none

/-- `payload.get(k, default)`. -/
def getD (v : JVal) (k : String) (dflt : JVal) : JVal :=
  (v.get k).getD dflt

/-- `{**d, k: x}`: replace the binding of `k` in place, else append —
matching dict-unpacking update order. -/
def setField (k : String) (x : JVal) : List (String × JVal) → List (String × JVal)
  | [] => [(k, x)]
  | (k', v) :: rest => if k' = k then (k', x) :: rest else (k', v) :: setField k x rest

/-- Python truthiness of a value. -/
def truthy : JVal → Bool
  | .null => false
  | .bool b => b
  | .num n => n != 0
  | .str s => s ≠ ""
  | .arr xs => !xs.isEmpty
  | .obj fs => !fs.isEmpty

/-- `isinstance(v, dict)`. -/
def isObj : JVal → Bool
  | .obj _ => true
  | _ => false

/-- `isinstance(v, str)`. -/
def isStr : JVal → Bool
  | .str _ => true
  | _ => false

/-- `a or b`. -/
def pyOr (a b : JVal) : JVal :=
  if a.truthy then a else b

/-- `str(v)` for the scalar values the handlers stringify. -/
def pyStr : JVal → String
  | .null => "None"
  | .bool b => if b then "True" else "False"
  | .num n => toString n
  | .str s => s
  | .arr _ => "<list>"
  | .obj _ => "<dict>"

end JVal

/-- Truthiness of `d.get(k)` (Python's `None` when the key is absent). -/
def truthyOpt : Option JVal → Bool
  | none => false
  | some v => v.truthy

/-! ### Aware datetimes

`datetime` values are kept as broken-down fields plus a UTC-offset in
minutes; every datetime the handlers manipulate is timezone-aware.
Comparison of aware datetimes compares the instants they denote. -/

structure Datetime where
  year : Nat
  month : Nat
  day : Nat
  hour : Nat
  minute : Nat
  second : Nat
  usec : Nat
  offsetMin : Int
  deriving DecidableEq, Repr

/-- Gregorian leap year. -/
def isLeapYear (y : Nat) : Bool :=
  (y % 4 = 0 && y % 100 ≠ 0) || y % 400 = 0

/-- Days in a month of a given year (`m` between 1 and 12). -/
def daysInMonth (y m : Nat) : Nat :=
  if m = 2 then (if isLeapYear y then 29 else 28)
  else if m = 4 ∨ m = 6 ∨ m = 9 ∨ m = 11 then 30
  else 31

/-- Days in the years before year `y` (proleptic Gregorian, `y ≥ 1`). -/
def daysBeforeYear (y : Nat) : Nat :=
  let n := y - 1
  365 * n + n / 4 + n / 400 - n / 100

/-- Days in the months of year `y` before month `m`. -/
def daysBeforeMonth (y m : Nat) : Nat :=
  let table := [0, 31, 59, 90, 120, 151, 181, 212, 243, 273, 304, 334]
  let base := (table.getD (m - 1) 0)
  if m > 2 ∧ isLeapYear y then base + 1 else base

/-- The instant a (timezone-aware) datetime denotes, in microseconds from
the proleptic-Gregorian epoch 0001-01-01T00:00:00+00:00.  Aware-datetime
comparison and subtraction in CPython agree with comparison of these. -/
def Datetime.instantUsec (d : Datetime) : Int :=
  (((daysBeforeYear d.year + daysBeforeMonth d.year d.month + (d.day - 1)) * 86400
      + d.hour * 3600 + d.minute * 60 + d.second : Nat) : Int) * 1000000
    + (d.usec : Int) - d.offsetMin * 60 * 1000000

def padNum (width n : Nat) : String :=
  let s := toString n
  String.mk (List.replicate (width - s.length) '0') ++ s

/-- `datetime.isoformat()` for an aware value:
`YYYY-MM-DDTHH:MM:SS[.ffffff]±HH:MM`. -/
def Datetime.isoformat (d : Datetime) : String :=
  let date := padNum 4 d.year ++ "-" ++ padNum 2 d.month ++ "-" ++ padNum 2 d.day
  let time := padNum 2 d.hour ++ ":" ++ padNum 2 d.minute ++ ":" ++ padNum 2 d.second
  let frac := if d.usec = 0 then "" else "." ++ padNum 6 d.usec
  let sign := if d.offsetMin < 0 then "-" else "+"
  let absOff := d.offsetMin.natAbs
  let off := sign ++ padNum 2 (absOff / 60) ++ ":" ++ padNum 2 (absOff % 60)
  date ++ "T" ++ time ++ frac ++ off

/-- `now - timedelta(minutes=m)` as an instant, in microseconds. -/
def deadlineInstantUsec (now : Datetime) (m : Int) : Int :=
  now.instantUsec - m * 60 * 1000000

/-! ### `datetime.strptime` for the four formats tried by `_ensure_isoformat`

Numeric fields are read greedily (1–2 digits, 1–4 for the year, 1–6 for
`%f`), as CPython's strptime regexes do on this format family; `%z` accepts
`Z`, `±HH:MM` and `±HHMM`. -/

/-- Read at most `max` digits (at least one); fails when a further digit
follows, matching the behaviour of the bounded regex before a non-digit
literal. -/
def readNum (max : Nat) (cs : List Char) : Option (Nat × List Char) :=
  go max cs 0 false
where
  go : Nat → List Char → Nat → Bool → Option (Nat × List Char)
    | 0, c :: rest, acc, _ => if c.isDigit then none else some (acc, c :: rest)
    | 0, [], acc, _ => some (acc, [])
    | m + 1, c :: rest, acc, started =>
        if c.isDigit then go m rest (acc * 10 + (c.toNat - 48)) true
        else if started then some (acc, c :: rest) else none
    | _ + 1, [], acc, started => if started then some (acc, []) else none

/-- Read `%f`: 1–6 fractional digits, scaled to microseconds. -/
def readFrac (cs : List Char) : Option (Nat × List Char) :=
  go 6 cs 0 false
where
  go : Nat → List Char → Nat → Bool → Option (Nat × List Char)
    | 0, c :: rest, acc, _ => if c.isDigit then none else some (acc, c :: rest)
    | 0, [], acc, _ => some (acc, [])
    | m + 1, c :: rest, acc, started =>
        if c.isDigit then go m rest (acc * 10 + (c.toNat - 48)) true
        else if started then some (acc * 10 ^ (m + 1), c :: rest) else none
    | m + 1, [], acc, started => if started then some (acc * 10 ^ (m + 1), []) else none

def expectChar (c : Char) : List Char → Option (List Char)
  | c' :: rest => if c' = c then some rest else none
  | [] => none

def readTwoDigits : List Char → Option (Nat × List Char)
  | a :: b :: rest =>
      if a.isDigit && b.isDigit then some ((a.toNat - 48) * 10 + (b.toNat - 48), rest)
      else none
  | _ => none

/-- The common `%Y-%m-%dT%H:%M:%S` prefix of all four formats. -/
def parseDateTimePrefix (cs : List Char) : Option (Nat × Nat × Nat × Nat × Nat × Nat × List Char) := do
  let (y, cs) ← readNum 4 cs
  let cs ← expectChar '-' cs
  let (mo, cs) ← readNum 2 cs
  let cs ← expectChar '-' cs
  let (d, cs) ← readNum 2 cs
  let cs ← expectChar 'T' cs
  let (h, cs) ← readNum 2 cs
  let cs ← expectChar ':' cs
  let (mi, cs) ← readNum 2 cs
  let cs ← expectChar ':' cs
  let (s, cs) ← readNum 2 cs
  pure (y, mo, d, h, mi, s, cs)

/-- `%z`: `Z`, or a sign followed by `HH`, an optional `:`, and `MM`;
the resulting offset must stay below 24 hours. -/
def readOffset : List Char → Option (Int × List Char)
  | 'Z' :: rest => some (0, rest)
  | c :: cs =>
      if c = '+' ∨ c = '-' then do
        let (hh, cs) ← readTwoDigits cs
        let cs := match cs with
          | ':' :: r => r
          | r => r
        let (mm, cs) ← readTwoDigits cs
        let total := hh * 60 + mm
        if total < 24 * 60 then
          pure (if c = '-' then -(total : Int) else (total : Int), cs)
        else none
      else none
  | [] => none

/-- The range checks the `datetime` constructor performs on strptime's
captured fields. -/
def mkDatetime? (y mo d h mi s usec : Nat) (off : Int) : Option Datetime :=
  if 1 ≤ y ∧ y ≤ 9999 ∧ 1 ≤ mo ∧ mo ≤ 12 ∧ 1 ≤ d ∧ d ≤ daysInMonth y mo
      ∧ h ≤ 23 ∧ mi ≤ 59 ∧ s ≤ 59 then
    some ⟨y, mo, d, h, mi, s, usec, off⟩
  else none

/-- `strptime(v, "%Y-%m-%dT%H:%M:%S%z")`. -/
def strptimeOffset (v : String) : Option Datetime := do
  let (y, mo, d, h, mi, s, cs) ← parseDateTimePrefix v.toList
  let (off, cs) ← readOffset cs
  if cs = [] then mkDatetime? y mo d h mi s 0 off else none

/-- `strptime(v, "%Y-%m-%dT%H:%M:%S.%f%z")`. -/
def strptimeFracOffset (v : String) : Option Datetime := do
  let (y, mo, d, h, mi, s, cs) ← parseDateTimePrefix v.toList
  let cs ← expectChar '.' cs
  let (usec, cs) ← readFrac cs
  let (off, cs) ← readOffset cs
  if cs = [] then mkDatetime? y mo d h mi s usec off else none

/-- `strptime(v, "%Y-%m-%dT%H:%M:%SZ")`: a naive result whose source ends in
`Z`, which `_ensure_isoformat` immediately re-tags as UTC — so the model
returns offset 0 directly. -/
def strptimeZ (v : String) : Option Datetime := do
  let (y, mo, d, h, mi, s, cs) ← parseDateTimePrefix v.toList
  let cs ← expectChar 'Z' cs
  if cs = [] then mkDatetime? y mo d h mi s 0 0 else none

/-- `strptime(v, "%Y-%m-%dT%H:%M:%S.%fZ")`, re-tagged as UTC like `strptimeZ`. -/
def strptimeFracZ (v : String) : Option Datetime := do
  let (y, mo, d, h, mi, s, cs) ← parseDateTimePrefix v.toList
  let cs ← expectChar '.' cs
  let (usec, cs) ← readFrac cs
  let cs ← expectChar 'Z' cs
  if cs = [] then mkDatetime? y mo d h mi s usec 0 else none

/-! ### Exceptions -/

/-- `botocore` transport errors: the two classes the handlers catch. -/
inductive AwsErr where
  | clientError
  | botoCoreError
  deriving DecidableEq, Repr

/-- The Python exceptions that can escape a pipeline stage. -/
inductive PyErr where
  | validationError (msg : String)
  | authorizationError (msg : String) (statusCode : Int)
  | typeError (msg : String)
  | attributeError (msg : String)
  | jsonDecodeError (msg : String)
  | awsError (e : AwsErr)
  deriving DecidableEq, Repr

/-- `_ensure_isoformat` in `src/dce_cancel/validation.py`: try the four
formats in order; nothing matching raises ValidationError.  A non-string
argument makes `strptime` itself raise TypeError, which the surrounding
`try` (catching only ValueError) lets escape. -/
def ensure_isoformat : JVal → Except PyErr Datetime
  | .str v =>
      match strptimeOffset v with
      | some d => .ok d
      | none =>
        match strptimeFracOffset v with
        | some d => .ok d
        | none =>
          match strptimeZ v with
          | some d => .ok d
          | none =>
            match strptimeFracZ v with
            | some d => .ok d
            | none => .error (.validationError "timestamp must be ISO 8601 with timezone information")
  | _ => .error (.typeError "strptime() argument 1 must be str, not other type")

/-! ### `json.loads`

A recursive-descent parser for the JSON fragment the service exchanges.
Numbers are modelled as integers (the payloads carry none but
`sequenceNumber`, an int); a fractional or exponent part is not modelled
and fails the parse.  Duplicate object keys keep the last binding, as in
CPython. -/

def jsonSkipWs : List Char → List Char
  | c :: rest =>
      if c = ' ' ∨ c = '\t' ∨ c = '\n' ∨ c = '\r' then jsonSkipWs rest else c :: rest
  | [] => []

def jsonHexVal? (c : Char) : Option Nat :=
  if c.isDigit then some (c.toNat - 48)
  else if 'a' ≤ c ∧ c ≤ 'f' then some (c.toNat - 87)
  else if 'A' ≤ c ∧ c ≤ 'F' then some (c.toNat - 55)
  else none

/-- Parse a JSON string body (after the opening quote); raw control
characters are rejected (CPython's strict mode). -/
def jsonParseString (acc : List Char) : List Char → Option (String × List Char)
  | '"' :: rest => some (String.mk acc.reverse, rest)
  | '\\' :: 'u' :: h1 :: h2 :: h3 :: h4 :: rest => do
      let d1 ← jsonHexVal? h1
      let d2 ← jsonHexVal? h2
      let d3 ← jsonHexVal? h3
      let d4 ← jsonHexVal? h4
      jsonParseString (Char.ofNat (((d1 * 16 + d2) * 16 + d3) * 16 + d4) :: acc) rest
  | '\\' :: c :: rest =>
      if c = '"' then jsonParseString ('"' :: acc) rest
      else if c = '\\' then jsonParseString ('\\' :: acc) rest
      else if c = '/' then jsonParseString ('/' :: acc) rest
      else if c = 'n' then jsonParseString ('\n' :: acc) rest
      else if c = 't' then jsonParseString ('\t' :: acc) rest
      else if c = 'r' then jsonParseString ('\r' :: acc) rest
      else if c = 'b' then jsonParseString (Char.ofNat 8 :: acc) rest
      else if c = 'f' then jsonParseString (Char.ofNat 12 :: acc) rest
      else none
  | c :: rest => if c.toNat < 32 then none else jsonParseString (c :: acc) rest
  | [] => none

/-- Parse a JSON integer (sign, no leading zeros); a fraction or exponent
part is outside the modelled fragment. -/
def jsonParseNumber (cs : List Char) : Option (Int × List Char) :=
  let (neg, cs') := match cs with
    | '-' :: rest => (true, rest)
    | rest => (false, rest)
  match readNum 1000 cs' with
  | some (n, rest) =>
      match cs' with
      | c :: _ =>
          if c = '0' ∧ n ≠ 0 then none
          else
            match rest with
            | d :: _ => if d = '.' ∨ d = 'e' ∨ d = 'E' then none
                        else some (if neg then -(n : Int) else (n : Int), rest)
            | [] => some (if neg then -(n : Int) else (n : Int), rest)
      | [] => none
  | none => none

/-- A parse position of the recursive-descent JSON machine: a value, the
members of an object (accumulated so far), or the elements of an array. -/
inductive JParseMode where
  | val
  | members (acc : List (String × JVal))
  | elems (acc : List JVal)

/-- The JSON value grammar as one fuel-indexed step function (structural on
the fuel, so concrete parses reduce definitionally); `jsonLoads` supplies
ample fuel, which only bounds nesting. -/
def jsonParseGo : Nat → JParseMode → List Char → Option (JVal × List Char)
  | 0, _, _ => none
  | fuel + 1, .val, cs =>
    (match jsonSkipWs cs with
     | 'n' :: 'u' :: 'l' :: 'l' :: rest => some (.null, rest)
     | 't' :: 'r' :: 'u' :: 'e' :: rest => some (.bool true, rest)
     | 'f' :: 'a' :: 'l' :: 's' :: 'e' :: rest => some (.bool false, rest)
     | '"' :: rest => (jsonParseString [] rest).map fun p => (.str p.1, p.2)
     | '{' :: rest =>
        (match jsonSkipWs rest with
          | '}' :: r => some (.obj [], r)
          | r => jsonParseGo fuel (.members []) r)
     | '[' :: rest =>
        (match jsonSkipWs rest with
          | ']' :: r => some (.arr [], r)
          | r => jsonParseGo fuel (.elems []) r)
     | cs2 => (jsonParseNumber cs2).map fun p => (.num p.1, p.2))
  | fuel + 1, .members acc, cs =>
    (match jsonSkipWs cs with
     | '"' :: rest =>
       (match jsonParseString [] rest with
        | none => none
        | some (k, rest1) =>
          match expectChar ':' (jsonSkipWs rest1) with
          | none => none
          | some rest2 =>
            match jsonParseGo fuel .val rest2 with
            | none => none
            | some (v, rest3) =>
              match jsonSkipWs rest3 with
              | ',' :: r => jsonParseGo fuel (.members (JVal.setField k v acc)) r
              | '}' :: r => some (.obj (JVal.setField k v acc), r)
              | _ => none)
     | _ => none)
  | fuel + 1, .elems acc, cs =>
    (match jsonParseGo fuel .val cs with
     | none => none
     | some (v, rest) =>
       match jsonSkipWs rest with
       | ',' :: r => jsonParseGo fuel (.elems (acc ++ [v])) r
       | ']' :: r => some (.arr (acc ++ [v]), r)
       | _ => none)

/-- `json.loads`.  Failure is `json.JSONDecodeError`, a `ValueError`. -/
def jsonLoads (s : String) : Except PyErr JVal :=
  match jsonParseGo (2 * s.length + 2) .val s.toList with
  | some (v, rest) =>
      if jsonSkipWs rest = [] then .ok v
      else .error (.jsonDecodeError "Extra data")
  | none => .error (.jsonDecodeError "Expecting value")

/-- `_parse_event` (identical in `lambada_handler.py` lines 24–31 and
`src/dce_cancel/handler.py` lines 20–27): unwrap a gateway-style `body` —
`json.loads` on a string body (an empty string falls back to `"{}"`), the
body itself when it is a dict, the event itself when it is a dict, `{}`
otherwise.  A malformed non-empty string body makes `json.loads` raise. -/
def parse_event (event : JVal) : Except PyErr JVal :=
  match event with
  | .obj fs =>
      match JVal.lookupField "body" fs with
      | some (.str s) => jsonLoads (if s = "" then "\x7b\x7d" else s)
      | some (.obj bs) => .ok (.obj bs)
      | some _ => .ok (.obj fs)
      | none => .ok (.obj fs)
  | _ => .ok (.obj [])

/-! ### Effects, oracles, configuration -/

/-- One downstream AWS call, recorded in invocation order. -/
inductive Effect where
  | sendMessage (queueUrl : String) (messageBody : JVal) (corrAttr : JVal)
  | updateItem (tableName : String) (keyPk keySk : String × String)
      (values : List (String × JVal))
  | queryAuthz (accessKey clientId tableName : String)

def Effect.isSendMessage : Effect → Bool
  | .sendMessage .. => true
  | _ => false

def Effect.isUpdateItem : Effect → Bool
  | .updateItem .. => true
  | _ => false

/-- The ambient nondeterminism of one invocation: the two wall-clock reads
(`datetime.now` in validation and in the status upsert), the fresh
`uuid.uuid4`, and whether each AWS call succeeds or raises a transport
error. -/
structure Oracles where
  nowValidate : Datetime
  nowUpsert : Datetime
  freshUuid : String
  sendResult : Except AwsErr Unit
  updateResult : Except AwsErr Unit
  authzQueryResult : Except AwsErr Bool

/-- `EnvConfig` in `src/dce_cancel/config.py` (environment reading in
`load()` is abstracted into the fields; `api_auth_token = ""` models an
absent/None token and `allowed_client_ids = []` models None, both falsy). -/
structure EnvConfig where
  sqs_queue_url : String
  dce_table_name : String
  partition_key : String
  sort_key : String
  api_auth_token : String
  allowed_client_ids : List String
  cancellation_deadline_minutes : Int

/-- Modelled from the spec: the module `config.config` imported by
`lambada_handler.py` is absent from the repository; its `EnvConfig` is
reconstructed from the handler's uses and §6 of the spec (queue URL, table
names, partition/sort key names, optional auth token, cancellation deadline
in minutes).  `api_auth_token = ""` models an absent token. -/
structure LambadaConfig where
  sqs_queue_url : String
  dce_table_name : String
  log_dce_table_name : String
  partition_key : String
  sort_key : String
  api_auth_token : String
  cancellation_deadline_minutes : Option Int

/-- The HTTP-shaped result of `_build_response`: the status code and the
structured body (which `json.dumps` serializes, together with the constant
`Content-Type: application/json` header). -/
structure Response where
  statusCode : Int
  body : JVal

def build_response (statusCode : Int) (body : JVal) : Response :=
  ⟨statusCode, body⟩

/-! ### The minimal-shape validator

`src/domain/services/validation.py`, whose result dataclass is the one in
`src/domain/models/payload.py`. -/

/-- The dataclass `ValidatedPayload` of `src/domain/models/payload.py`:
fields `dce_id, event, timestamp, timestamp_dt, issuer, metadata,
client_id`. -/
structure ModelsValidatedPayload where
  dce_id : String
  event : JVal
  timestamp : String
  timestamp_dt : Datetime
  issuer : JVal
  metadata : JVal
  client_id : String

/-- The keyword arguments `validate_payload` in
`src/domain/services/validation.py` computes for its `ValidatedPayload(...)`
call: `document_id, event_cancel_date, event_cancel_date_dt, cancel_reason,
client_id`. -/
structure ServicesValidatedArgs where
  document_id : String
  event_cancel_date : String
  event_cancel_date_dt : Datetime
  cancel_reason : String
  client_id : String
  deriving DecidableEq

/-- Lines 20–43 of `src/domain/services/validation.py` up to (and
 including) evaluation of the arguments of the `ValidatedPayload(...)` call:
field checks, then `event_cancel_date` is synthesized from the current UTC
clock, never taken from the payload. -/
def services_validate_args (payload : JVal) (now : Datetime) :
    Except PyErr ServicesValidatedArgs := do
  if !payload.isObj then
    throw (.validationError "payload must be a JSON object")
  let document_id := payload.get "id"
  let cancel_reason := payload.get "cancelReason"
  if !truthyOpt document_id then
    throw (.validationError "id is required")
  if !truthyOpt cancel_reason then
    throw (.validationError "cancelReason is required")
  match cancel_reason with
  | some (.str reason) =>
      pure { document_id := (document_id.getD .null).pyStr
             event_cancel_date := now.isoformat
             event_cancel_date_dt := now
             cancel_reason := reason
             client_id := "" }
  | _ => throw (.validationError "cancelReason must be a string")

/-- `validate_payload` in `src/domain/services/validation.py`: after
computing the arguments it calls `ValidatedPayload(document_id=..., ...)`,
but the `ValidatedPayload` dataclass it imports (from
`src/domain/models/payload.py`) has fields `dce_id, event, timestamp,
timestamp_dt, issuer, metadata, client_id` — so the call raises TypeError
for every payload that passes the field checks.  The
`cancellation_deadline_minutes` parameter is accepted and ignored, as in
the source. -/
def services_validate_payload (payload : JVal)
    (_cancellation_deadline_minutes : Option Int) (now : Datetime) :
    Except PyErr ModelsValidatedPayload := do
  let _args ← services_validate_args payload now
  throw (.typeError "ValidatedPayload.__init__() got an unexpected keyword argument document_id")

/-! ### Python `dict.get` with None-collapsing

`d.get(k)` yields `None` both when the key is absent and when it maps to
JSON null; `pyGet` collapses the two, matching what `is not None` and
truthiness tests observe. -/

def JVal.pyGet (v : JVal) (k : String) : Option JVal :=
  match v.get k with
  | some .null => none
  | o => o

/-! ### The envelope-shape validator (`src/dce_cancel/validation.py`) -/

/-- The `ValidatedPayload` dataclass of `src/dce_cancel/validation.py`. -/
structure DceValidatedPayload where
  dce_id : String
  event : JVal
  timestamp : String
  timestamp_dt : Datetime
  issuer : JVal
  metadata : JVal
  client_id : String

/-- `validate_payload` in `src/dce_cancel/validation.py`, lines 56–133.
The deadline check (lines 113–117) runs last, after every field check. -/
def dce_validate_payload (payload : JVal) (cancellation_deadline_minutes : Option Int)
    (now : Datetime) : Except PyErr DceValidatedPayload := do
  if !payload.isObj then
    throw (.validationError "payload must be a JSON object")
  let dce_id := payload.pyGet "dceId"
  let event := payload.pyGet "event"
  let timestamp := payload.pyGet "timestamp"
  let issuer := payload.pyGet "issuer"
  let client_id := payload.pyGet "clientId"
  if !truthyOpt dce_id then
    throw (.validationError "dceId is required")
  let eventObj : JVal ←
    (match event with
     | some (.obj fs) => pure (.obj fs)
     | _ => throw (.validationError "event must be an object") : Except PyErr JVal)
  if !truthyOpt timestamp then
    throw (.validationError "timestamp is required")
  let tsVal := timestamp.getD .null
  let timestamp_dt ← ensure_isoformat tsVal
  let event_code : Option String :=
    match eventObj.pyGet "code" with
    | some v => some v.pyStr
    | none => none
  let schema_version := eventObj.pyGet "schemaVersion"
  let sequence_number := eventObj.pyGet "sequenceNumber"
  let reason := eventObj.pyGet "reason"
  let protocol := eventObj.pyGet "protocol"
  let clientIdStr : String ←
    (match client_id with
     | some (.str s) => if s = "" then throw (.validationError "clientId is required") else pure s
     | _ => throw (.validationError "clientId is required") : Except PyErr String)
  let ec : String ←
    (match event_code with
     | some s =>
         if s = "110111" then pure s
         else throw (.validationError "event.code must be one of 110111")
     | none => throw (.validationError "event.code must be one of 110111") : Except PyErr String)
  let schemaOk := match schema_version with
    | some (.str s) => s = "1.00" || s = "1.01"
    | _ => false
  if !schemaOk then
    throw (.validationError "event.schemaVersion must be one of 1.00, 1.01")
  -- `isinstance(sequence_number, int)`: Python bools are ints (True counts as 1)
  let seqOk := match sequence_number with
    | some (.num n) => n ≥ 1
    | some (.bool b) => b
    | _ => false
  if !seqOk then
    throw (.validationError "event.sequenceNumber must be a positive integer")
  if !truthyOpt reason then
    throw (.validationError "event.reason is required")
  if !truthyOpt protocol then
    throw (.validationError "event.protocol is required")
  let issuerObj : JVal ←
    (match issuer with
     | some (.obj fs) => pure (.obj fs)
     | _ => throw (.validationError "issuer must be an object") : Except PyErr JVal)
  if !truthyOpt (issuerObj.pyGet "cnpj") then
    throw (.validationError "issuer.cnpj is required")
  let metadata : JVal :=
    match payload.pyGet "metadata" with
    | some v => if v.truthy then v else .obj []
    | none => .obj []
  if !metadata.isObj then
    throw (.validationError "metadata, when provided, must be an object")
  (match cancellation_deadline_minutes with
   | some m =>
       if timestamp_dt.instantUsec < deadlineInstantUsec now m then
         throw (.validationError "Cancellation window expired for the provided timestamp")
       else pure ()
   | none => pure () : Except PyErr Unit)
  -- strptime succeeded above, so the raw timestamp value is a string
  pure { dce_id := (dce_id.getD .null).pyStr
         event := .obj [("code", .str ec),
                        ("schemaVersion", schema_version.getD .null),
                        ("sequenceNumber", sequence_number.getD .null),
                        ("reason", .str ((reason.getD .null).pyStr)),
                        ("protocol", .str ((protocol.getD .null).pyStr))]
         timestamp := tsVal.pyStr
         timestamp_dt := timestamp_dt
         issuer := issuerObj
         metadata := metadata
         client_id := clientIdStr }

/-! ### Access guard (`_authenticate_request`, `_extract_client_id`) -/

def isPyWs (c : Char) : Bool :=
  c = ' ' ∨ c = '\t' ∨ c = '\n' ∨ c = '\r' ∨ c = '\x0b' ∨ c = '\x0c'

/-- `s.strip()`. -/
def pyStrip (s : String) : String :=
  String.mk (((s.toList.dropWhile isPyWs).reverse.dropWhile isPyWs).reverse)

/-- `s.split(" ", 1)[1]`: everything after the first space (call sites
guarantee a space is present). -/
def splitOnceRest (s : String) : String :=
  String.mk ((s.toList.dropWhile fun c => c ≠ ' ').drop 1)

/-- `s.startswith(pre)`. -/
def pyStartsWith (s pre : String) : Bool :=
  pre.toList.isPrefixOf s.toList

/-- `k.lower()` for the ASCII header names the handlers normalize. -/
def asciiLower (s : String) : String :=
  String.mk (s.toList.map fun c =>
    if 'A' ≤ c ∧ c ≤ 'Z' then Char.ofNat (c.toNat + 32) else c)

/-- `_authenticate_request` (identical in both handlers): a no-op when no
token is configured; otherwise the `Authorization` (or `authorization`)
header must be a string of the form `Bearer <rest>` with `rest.strip()`
equal to the token, else AuthorizationError 401.  A truthy non-string
header value makes `.startswith` raise AttributeError. -/
def authenticate_request (event : JVal) (api_auth_token : String) : Except PyErr Unit := do
  if api_auth_token = "" then
    return ()
  let provided : Option String ←
    (match event.get "headers" with
     | some (.obj hs) =>
         let auth_header := JVal.pyOr ((JVal.lookupField "Authorization" hs).getD .null)
           ((JVal.lookupField "authorization" hs).getD .null)
         if auth_header.truthy then
           match auth_header with
           | .str s =>
               if pyStartsWith s "Bearer " then pure (some (pyStrip (splitOnceRest s)))
               else pure none
           | _ => throw (.attributeError "object has no attribute startswith")
         else pure none
     | _ => pure none : Except PyErr (Option String))
  if provided ≠ some api_auth_token then
    throw (.authorizationError "Unauthorized" 401)

/-- `{k.lower(): v for k, v in headers.items()}`: later duplicates of a
lowercased key overwrite earlier ones, and a non-dict `headers` yields the
empty map. -/
def normalize_headers (headers : JVal) : List (String × JVal) :=
  match headers with
  | .obj hs => hs.foldl (fun acc kv => JVal.setField (asciiLower kv.1) kv.2 acc) []
  | _ => []

def client_id_aliases : List String := ["client-id", "client_id", "clientid", "x-client-id"]

/-- `_extract_client_id` in `lambada_handler.py` lines 58–71: the first
alias (in the fixed order) present in the lowercased header map provides
the candidate; it must be a non-empty string, else AuthorizationError 401. -/
def extract_client_id (event : JVal) : Except PyErr String := do
  let normalized := normalize_headers ((event.get "headers").getD .null)
  let client_id : Option JVal :=
    client_id_aliases.findSome? fun k => JVal.lookupField k normalized
  match client_id with
  | some (.str s) =>
      if s = "" then throw (.authorizationError "clientId header is required" 401)
      else pure s
  | _ => throw (.authorizationError "clientId header is required" 401)

/-! ### Correlation id, dispatcher, orchestrators -/

/-- Lines 144–148 of `lambada_handler.py` (identical in
`src/dce_cancel/handler.py` lines 109–113): the `X-Correlation-Id` header
(exact case) if truthy, else the payload's `correlationId`, else a fresh
uuid4.  `event.get("headers", {})` defaults only when the key is absent; a
present non-dict value (e.g. null) makes the chained `.get` raise
AttributeError. -/
def get_correlation_id (event payload : JVal) (freshUuid : String) : Except PyErr JVal := do
  let hdrCorr : JVal ←
    (match event with
     | .obj fs =>
         match (JVal.lookupField "headers" fs).getD (.obj []) with
         | .obj hs => pure ((JVal.lookupField "X-Correlation-Id" hs).getD .null)
         | _ => throw (.attributeError "object has no attribute get")
     | _ => pure .null : Except PyErr JVal)
  pure (JVal.pyOr hdrCorr
    (JVal.pyOr ((payload.get "correlationId").getD .null) (.str freshUuid)))

/-- `message_body = json.dumps({**payload, "correlationId": correlation_id})`
(the structured dict before serialization). -/
def enqueue_message_body (payload : JVal) (correlation_id : JVal) : JVal :=
  match payload with
  | .obj fs => .obj (JVal.setField "correlationId" correlation_id fs)
  | v => v

/-- `_enqueue_cancellation` as an effect: `send_message(QueueUrl=...,
MessageBody=..., MessageAttributes={"CorrelationId": {"StringValue":
correlation_id, "DataType": "String"}})`. -/
def enqueue_effect (queueUrl : String) (payload : JVal) (correlation_id : JVal) : Effect :=
  .sendMessage queueUrl (enqueue_message_body payload correlation_id) correlation_id

/-- `EVENT_CODE` in `lambada_handler.py`. -/
def EVENT_CODE : String := "110111"

/-- The `ExpressionAttributeValues` of the `update_item` call in
`_upsert_cancellation_status` of `src/dce_cancel/handler.py` (the call
sites always provide the keys it indexes). -/
def dce_upsert_values (payload : JVal) (correlation_id : JVal) (now : Datetime) :
    List (String × JVal) :=
  [(":status", .str "CANCELLATION_REQUESTED"),
   (":correlationId", correlation_id),
   (":eventCode", (payload.getD "event" .null).getD "code" .null),
   (":updatedAt", .str now.isoformat),
   (":eventTimestamp", payload.getD "timestamp" .null),
   (":requestedAt", .str now.isoformat),
   (":reason", (payload.getD "event" .null).getD "reason" .null),
   (":operationStatus", .str "RECEIVED"),
   (":clientId", payload.getD "clientId" .null)]

/-- `_upsert_cancellation_status` of `src/dce_cancel/handler.py` as an
effect. -/
def dce_upsert_effect (config : EnvConfig) (payload : JVal) (correlation_id : JVal)
    (now : Datetime) : Effect :=
  .updateItem config.dce_table_name
    (config.partition_key, "DCE#" ++ (payload.getD "dceId" .null).pyStr)
    (config.sort_key, "LATEST")
    (dce_upsert_values payload correlation_id now)

/-- The `except` cascade shared verbatim by both handlers:
AuthorizationError → its `status_code` (default 403), ValidationError →
400, ClientError/BotoCoreError → 502 with a fixed body, anything else
(TypeError, AttributeError, JSONDecodeError, ...) → 500 with `str(exc)`. -/
def response_of_error : PyErr → Response
  | .authorizationError msg code => build_response code (.obj [("error", .str msg)])
  | .validationError msg => build_response 400 (.obj [("error", .str msg)])
  | .awsError _ => build_response 502 (.obj [("error", .str "Failed to dispatch cancellation event")])
  | .typeError msg => build_response 500 (.obj [("error", .str msg)])
  | .attributeError msg => build_response 500 (.obj [("error", .str msg)])
  | .jsonDecodeError msg => build_response 500 (.obj [("error", .str msg)])

/-- `src/dce_cancel/handler.py` lines 101–113: everything before the first
I/O call — parse, authenticate, validate (with the configured deadline),
allow-list check, correlation id. -/
def dce_precheck (event : JVal) (config : EnvConfig) (now : Datetime) (freshUuid : String) :
    Except PyErr (DceValidatedPayload × JVal) := do
  let payload_dict ← parse_event event
  authenticate_request event config.api_auth_token
  let validated ← dce_validate_payload payload_dict
    (some config.cancellation_deadline_minutes) now
  if !config.allowed_client_ids.isEmpty
      && !config.allowed_client_ids.contains validated.client_id then
    throw (.authorizationError "clientId is not authorized to cancel this DCe" 403)
  let correlation_id ← get_correlation_id event payload_dict freshUuid
  pure (validated, correlation_id)

/-- The enqueue payload built on lines 115–122 of
`src/dce_cancel/handler.py`. -/
def dce_enqueue_payload (validated : DceValidatedPayload) : JVal :=
  .obj [("dceId", .str validated.dce_id),
        ("event", validated.event),
        ("timestamp", .str validated.timestamp),
        ("issuer", validated.issuer),
        ("metadata", validated.metadata),
        ("clientId", .str validated.client_id)]

/-- `handler` of `src/dce_cancel/handler.py`: the precheck, then the queue
send, then the status upsert, then the 201 response; any raised exception
short-circuits into `response_of_error`, keeping the effects already
performed. -/
def dce_handler (event : JVal) (config : EnvConfig) (o : Oracles) : Response × List Effect :=
  match dce_precheck event config o.nowValidate o.freshUuid with
  | .error e => (response_of_error e, [])
  | .ok (validated, correlation_id) =>
      let enqueue_payload := dce_enqueue_payload validated
      let sendEff := enqueue_effect config.sqs_queue_url enqueue_payload correlation_id
      match o.sendResult with
      | .error e => (response_of_error (.awsError e), [sendEff])
      | .ok _ =>
          let updEff := dce_upsert_effect config enqueue_payload correlation_id o.nowUpsert
          match o.updateResult with
          | .error e => (response_of_error (.awsError e), [sendEff, updEff])
          | .ok _ =>
              (build_response 201 (.obj [("message", .str "Cancellation received"),
                                         ("dceId", .str validated.dce_id),
                                         ("correlationId", correlation_id)]),
               [sendEff, updEff])

/-- `handler` of `lambada_handler.py` up to its first I/O call: parse,
authenticate, extract the client id, validate.  `services_validate_payload`
raises TypeError for every payload passing the field checks (see its doc);
were it to return, line 142 would evaluate `validated.document_id`, a field
the `ValidatedPayload` dataclass of `src/domain/models/payload.py` does not
have, raising AttributeError before `_authorize_client` is called — so the
success type is empty and no effect is ever performed. -/
def lambada_precheck (event : JVal) (config : LambadaConfig) (now : Datetime) :
    Except PyErr Empty := do
  let payload_dict ← parse_event event
  authenticate_request event config.api_auth_token
  let client_id ← extract_client_id event
  let validated ← services_validate_payload payload_dict
    config.cancellation_deadline_minutes now
  let _validated := { validated with client_id := client_id }
  throw (.attributeError "ValidatedPayload object has no attribute document_id")

/-- `handler` of `lambada_handler.py`. -/
def lambada_handler (event : JVal) (config : LambadaConfig) (o : Oracles) :
    Response × List Effect :=
  match lambada_precheck event config o.nowValidate with
  | .error e => (response_of_error e, [])
  | .ok v => v.elim

/-! ### Concrete vectors used by witnesses and counterexamples -/

/-- A fixed clock: 2024-06-01T12:00:00+00:00. -/
def sampleNow : Datetime := ⟨2024, 6, 1, 12, 0, 0, 0, 0⟩

/-- 2023-01-01T00:00:00+00:00, the expired caller timestamp of the
envelope tests. -/
def oldTs : Datetime := ⟨2023, 1, 1, 0, 0, 0, 0, 0⟩

/-- Oracles for a run in which both AWS calls succeed. -/
def okOracles : Oracles :=
  ⟨sampleNow, sampleNow, "fresh-uuid", .ok (), .ok (), .ok true⟩

/-- Oracles for a run in which the queue send raises a ClientError. -/
def sendFailOracles : Oracles :=
  { okOracles with sendResult := .error .clientError }

/-- A minimal-pipeline configuration mirroring `test_lambada_handler.py`. -/
def lambadaCfg : LambadaConfig :=
  ⟨"https://sqs.queue", "dce-table", "logDce", "pk", "sk", "secret", some 525600⟩

/-- An envelope-pipeline configuration mirroring `tests/test_handler.py`. -/
def dceCfg : EnvConfig :=
  ⟨"https://sqs.queue", "dce-table", "pk", "sk", "secret", ["partner-123"], 525600⟩

/-- The same configuration with a 60-minute cancellation deadline. -/
def dceCfg60 : EnvConfig :=
  { dceCfg with cancellation_deadline_minutes := 60 }

/-- Request headers with a valid bearer token and client id. -/
def sampleHeaders : JVal :=
  .obj [("Authorization", .str "Bearer secret"), ("Client-Id", .str "partner-123")]

/-- The spec scenario event: body
`\x7b"id":"1234567890","cancelReason":"duplicate invoice"\x7d` with valid
auth and client headers. -/
def minimalScenarioEvent : JVal :=
  .obj [("body", .str "\x7b\"id\":\"1234567890\",\"cancelReason\":\"duplicate invoice\"\x7d"),
        ("headers", sampleHeaders)]

/-- The spec scenario event with empty body object. -/
def emptyBodyEvent : JVal :=
  .obj [("body", .str "\x7b\x7d"), ("headers", sampleHeaders)]

/-- An event whose body is the malformed JSON string consisting of one
opening brace. -/
def malformedBodyEvent : JVal :=
  .obj [("body", .str "\x7b"), ("headers", sampleHeaders)]

/-- A valid envelope payload whose caller timestamp is one hour before
`sampleNow`. -/
def dceSamplePayload : JVal :=
  .obj [("dceId", .str "DCE123"),
        ("event", .obj [("code", .str "110111"), ("schemaVersion", .str "1.00"),
                        ("sequenceNumber", .num 1), ("reason", .str "Cancelamento por duplicidade"),
                        ("protocol", .str "123456789012345")]),
        ("timestamp", .str "2024-06-01T11:00:00+00:00"),
        ("issuer", .obj [("cnpj", .str "12345678000199")]),
        ("metadata", .obj [("state", .str "RS")]),
        ("clientId", .str "partner-123")]

/-- The same envelope payload with the expired timestamp. -/
def dceExpiredPayload : JVal :=
  .obj [("dceId", .str "DCE123"),
        ("event", .obj [("code", .str "110111"), ("schemaVersion", .str "1.00"),
                        ("sequenceNumber", .num 1), ("reason", .str "Cancelamento por duplicidade"),
                        ("protocol", .str "123456789012345")]),
        ("timestamp", .str "2023-01-01T00:00:00+00:00"),
        ("issuer", .obj [("cnpj", .str "12345678000199")]),
        ("metadata", .obj [("state", .str "RS")]),
        ("clientId", .str "partner-123")]

/-- The expired envelope payload with its `clientId` removed. -/
def dceExpiredNoClientPayload : JVal :=
  .obj [("dceId", .str "DCE123"),
        ("event", .obj [("code", .str "110111"), ("schemaVersion", .str "1.00"),
                        ("sequenceNumber", .num 1), ("reason", .str "Cancelamento por duplicidade"),
                        ("protocol", .str "123456789012345")]),
        ("timestamp", .str "2023-01-01T00:00:00+00:00"),
        ("issuer", .obj [("cnpj", .str "12345678000199")])]

/-- The envelope event: the sample payload as a dict body, bearer header. -/
def dceSampleEvent : JVal :=
  .obj [("body", dceSamplePayload),
        ("headers", .obj [("Authorization", .str "Bearer secret")])]

/-- The envelope event with the expired payload. -/
def dceExpiredEvent : JVal :=
  .obj [("body", dceExpiredPayload),
        ("headers", .obj [("Authorization", .str "Bearer secret")])]

/-- An authorization header with a trailing space after the token. -/
def trailingSpaceAuthEvent : JVal :=
  .obj [("headers", .obj [("Authorization", .str "Bearer secret ")])]

/-- Headers carrying the alias `client-id` with an empty value and the
alias `client_id` with a non-empty one. -/
def twoAliasHeaders : List (String × JVal) :=
  [("client-id", .str ""), ("client_id", .str "x")]

def twoAliasEvent : JVal :=
  .obj [("headers", .obj twoAliasHeaders)]

/-! ### Reduction lemmas for the `Except` monad and the value model -/

@[simp] theorem ebind_ok {α β : Type} (a : α) (f : α → Except PyErr β) :
    (Except.ok a : Except PyErr α) >>= f = f a := rfl

@[simp] theorem ebind_err {α β : Type} (e : PyErr) (f : α → Except PyErr β) :
    (Except.error e : Except PyErr α) >>= f = .error e := rfl

@[simp] theorem ethrow {α : Type} (e : PyErr) : (throw e : Except PyErr α) = .error e := rfl

@[simp] theorem epure {α : Type} (a : α) : (pure a : Except PyErr α) = .ok a := rfl

@[simp] theorem emap_ok {α β : Type} (f : α → β) (a : α) :
    f <$> (Except.ok a : Except PyErr α) = .ok (f a) := rfl

@[simp] theorem emap_err {α β : Type} (f : α → β) (e : PyErr) :
    f <$> (Except.error e : Except PyErr α) = .error e := rfl

@[simp] theorem truthyOpt_none : truthyOpt none = false := rfl

@[simp] theorem truthyOpt_some (v : JVal) : truthyOpt (some v) = v.truthy := rfl

@[simp] theorem truthy_str (s : String) : (JVal.str s).truthy = decide (s ≠ "") := rfl

@[simp] theorem truthy_null : JVal.null.truthy = false := rfl

@[simp] theorem isObj_obj (fs : List (String × JVal)) : (JVal.obj fs).isObj = true := rfl

theorem lookupField_setField_self (k : String) (x : JVal) (fs : List (String × JVal)) :
    JVal.lookupField k (JVal.setField k x fs) = some x := by
  induction fs with
  | nil => simp [JVal.setField, JVal.lookupField]
  | cons kv rest ih =>
      by_cases h : kv.1 = k
      · simp [JVal.setField, JVal.lookupField, h]
      · simp [JVal.setField, JVal.lookupField, h, ih]

/-- The `lambada_handler` pipeline performs no downstream I/O at all: its
validator raises for every payload (see `services_validate_payload`), so
the send, the upsert and the authorization query are all unreachable. -/
theorem lambada_handler_no_effects (event : JVal) (config : LambadaConfig) (o : Oracles) :
    (lambada_handler event config o).2 = [] := by
  cases h : lambada_precheck event config o.nowValidate with
  | error e => simp [lambada_handler, h]
  | ok v => exact v.elim

/-- `lambada_handler` always answers with the mapped error of its
precheck. -/
theorem lambada_handler_eq (event : JVal) (config : LambadaConfig) (o : Oracles) (e : PyErr)
    (h : lambada_precheck event config o.nowValidate = .error e) :
    lambada_handler event config o = (response_of_error e, []) := by
  simp [lambada_handler, h]

/-- The minimal-shape field checks succeed exactly on a dict payload with
truthy `id` and non-empty string `cancelReason`; the computed constructor
arguments take the timestamp from the clock. -/
theorem services_args_ok (fs : List (String × JVal)) (now : Datetime) (s : String)
    (hid : truthyOpt (JVal.lookupField "id" fs) = true)
    (hcr : JVal.lookupField "cancelReason" fs = some (.str s)) (hs : s ≠ "") :
    services_validate_args (.obj fs) now =
      .ok ⟨((JVal.lookupField "id" fs).getD .null).pyStr, now.isoformat, now, s, ""⟩ := by
  simp [services_validate_args, JVal.get, hcr, hid, hs]

/-- Whenever the field checks pass, the minimal-shape validator ends in the
mismatched `ValidatedPayload(...)` call and raises TypeError. -/
theorem services_typeerror (fs : List (String × JVal)) (dl : Option Int) (now : Datetime)
    (s : String)
    (hid : truthyOpt (JVal.lookupField "id" fs) = true)
    (hcr : JVal.lookupField "cancelReason" fs = some (.str s)) (hs : s ≠ "") :
    services_validate_payload (.obj fs) dl now =
      .error (.typeError "ValidatedPayload.__init__() got an unexpected keyword argument document_id") := by
  simp [services_validate_payload, services_args_ok fs now s hid hcr hs]

/-- C3: for every dict payload with a truthy `id` and a truthy string
`cancelReason` (every payload passing all field checks), `validate_payload`
of `src/domain/services/validation.py` raises TypeError, because it
constructs the `ValidatedPayload` dataclass imported from
`domain/models/payload.py` (fields `dce_id, event, timestamp, timestamp_dt,
issuer, metadata, client_id`) with the keyword arguments `document_id,
event_cancel_date, event_cancel_date_dt, cancel_reason, client_id`;
consequently the minimal-shape handler can never reach its success branch
and maps every such request (once past auth and client-id extraction) to
statusCode 500, with no I/O performed. -/
theorem C3_minimal_validator_always_raises_typeerror
    (fs : List (String × JVal)) (dl : Option Int) (now : Datetime) (s : String)
    (hid : truthyOpt (JVal.lookupField "id" fs) = true)
    (hcr : JVal.lookupField "cancelReason" fs = some (.str s)) (hs : s ≠ "") :
    services_validate_payload (.obj fs) dl now =
      .error (.typeError "ValidatedPayload.__init__() got an unexpected keyword argument document_id")
    ∧ ∀ (event : JVal) (cfg : LambadaConfig) (o : Oracles) (cid : String),
        parse_event event = .ok (.obj fs) →
        authenticate_request event cfg.api_auth_token = .ok () →
        extract_client_id event = .ok cid →
        (lambada_handler event cfg o).1.statusCode = 500 ∧
          (lambada_handler event cfg o).2 = [] := by
  refine ⟨services_typeerror fs dl now s hid hcr hs, ?_⟩
  intro event cfg o cid hparse hauth hext
  have hpre : lambada_precheck event cfg o.nowValidate =
      .error (.typeError "ValidatedPayload.__init__() got an unexpected keyword argument document_id") := by
    simp [lambada_precheck, hparse, hauth, hext,
      services_typeerror fs cfg.cancellation_deadline_minutes o.nowValidate s hid hcr hs]
  rw [lambada_handler_eq event cfg o _ hpre]
  simp [response_of_error, build_response]

/-- Witness for C3 at the spec scenario payload and event. -/
theorem C3_witness :
    services_validate_payload
        (.obj [("id", .str "1234567890"), ("cancelReason", .str "duplicate invoice")])
        (some 525600) sampleNow =
      .error (.typeError "ValidatedPayload.__init__() got an unexpected keyword argument document_id")
    ∧ (lambada_handler minimalScenarioEvent lambadaCfg okOracles).1.statusCode = 500
    ∧ (lambada_handler minimalScenarioEvent lambadaCfg okOracles).2 = [] := by
  have h := C3_minimal_validator_always_raises_typeerror
    [("id", .str "1234567890"), ("cancelReason", .str "duplicate invoice")]
    (some 525600) sampleNow "duplicate invoice" (by rfl) (by rfl) (by decide)
  exact ⟨h.1, h.2 minimalScenarioEvent lambadaCfg okOracles "partner-123" rfl rfl rfl⟩

/-- C2 (code-bug evidence): at the spec scenario input — body
`\x7b"id":"1234567890","cancelReason":"duplicate invoice"\x7d`, valid
bearer token and client-id header, authorizing store lookup — the
minimal-shape handler answers 500 with the TypeError text and performs
neither the queue send nor the store upsert, where spec and tests expect
201 with both. -/
theorem C2_minimal_scenario_returns_500_not_201 :
    lambada_handler minimalScenarioEvent lambadaCfg okOracles =
      (build_response 500 (.obj [("error",
        .str "ValidatedPayload.__init__() got an unexpected keyword argument document_id")]), []) := by
  rfl

/-- C4: with auth and client-id extraction passing, a dict payload whose
`id` is missing/falsy is rejected with 400 "id is required", and one whose
`id` is present but whose `cancelReason` is missing/falsy with 400
"cancelReason is required"; in both cases no downstream I/O happens. -/
theorem C4_missing_fields_reject_with_400_before_io
    (fs : List (String × JVal)) (event : JVal) (cfg : LambadaConfig) (o : Oracles) (cid : String)
    (hparse : parse_event event = .ok (.obj fs))
    (hauth : authenticate_request event cfg.api_auth_token = .ok ())
    (hext : extract_client_id event = .ok cid) :
    (truthyOpt (JVal.lookupField "id" fs) = false →
      lambada_handler event cfg o =
        (build_response 400 (.obj [("error", .str "id is required")]), []))
    ∧ (truthyOpt (JVal.lookupField "id" fs) = true →
       truthyOpt (JVal.lookupField "cancelReason" fs) = false →
       lambada_handler event cfg o =
         (build_response 400 (.obj [("error", .str "cancelReason is required")]), [])) := by
  constructor
  · intro hid
    have hpre : lambada_precheck event cfg o.nowValidate =
        .error (.validationError "id is required") := by
      simp [lambada_precheck, hparse, hauth, hext, services_validate_payload,
        services_validate_args, JVal.get, hid]
    rw [lambada_handler_eq event cfg o _ hpre]
    rfl
  · intro hid hcr
    have hpre : lambada_precheck event cfg o.nowValidate =
        .error (.validationError "cancelReason is required") := by
      simp [lambada_precheck, hparse, hauth, hext, services_validate_payload,
        services_validate_args, JVal.get, hid, hcr]
    rw [lambada_handler_eq event cfg o _ hpre]
    rfl

/-- Witness for C4 at the empty-object body (the spec scenario `\x7b\x7d`). -/
theorem C4_witness :
    (lambada_handler emptyBodyEvent lambadaCfg okOracles =
      (build_response 400 (.obj [("error", .str "id is required")]), [])) := by
  exact (C4_missing_fields_reject_with_400_before_io [] emptyBodyEvent lambadaCfg okOracles
    "partner-123" rfl rfl rfl).1 rfl

/-- C1: for every request in which the queue send raises a transport error
(ClientError or BotoCoreError), the handler returns 502 and `update_item`
is never invoked — the send comes first, and the store write is not
attempted on send failure.  In the minimal pipeline no effect is ever
performed at all (its validator always raises, C3), so the property holds
there vacuously and is exercised by the envelope pipeline. -/
theorem C1_send_failure_gives_502_and_never_upserts
    (event : JVal) (cfgD : EnvConfig) (cfgL : LambadaConfig) (o : Oracles) (e : AwsErr)
    (hsend : o.sendResult = .error e) :
    (∀ f ∈ (dce_handler event cfgD o).2, f.isUpdateItem = false)
    ∧ ((∃ f ∈ (dce_handler event cfgD o).2, f.isSendMessage = true) →
        (dce_handler event cfgD o).1.statusCode = 502)
    ∧ (lambada_handler event cfgL o).2 = [] := by
  have hlam := lambada_handler_no_effects event cfgL o
  cases hpre : dce_precheck event cfgD o.nowValidate o.freshUuid with
  | error er =>
      have h2 : dce_handler event cfgD o = (response_of_error er, []) := by
        simp [dce_handler, hpre]
      rw [h2]
      simp [hlam]
  | ok vc =>
      obtain ⟨v, c⟩ := vc
      have h2 : dce_handler event cfgD o =
          (response_of_error (.awsError e),
           [enqueue_effect cfgD.sqs_queue_url (dce_enqueue_payload v) c]) := by
        simp [dce_handler, hpre, hsend]
      rw [h2]
      refine ⟨?_, ?_, hlam⟩
      · intro f hf
        simp only [List.mem_singleton] at hf
        subst hf
        rfl
      · intro _
        rfl

/-- Witness for C1: the envelope sample request with a failing send reaches
the queue call, answers 502 and performs no upsert. -/
theorem C1_witness :
    sendFailOracles.sendResult = .error .clientError
    ∧ (∀ f ∈ (dce_handler dceSampleEvent dceCfg sendFailOracles).2, f.isUpdateItem = false)
    ∧ (dce_handler dceSampleEvent dceCfg sendFailOracles).1.statusCode = 502
    ∧ (dce_handler dceSampleEvent dceCfg sendFailOracles).2.length = 1 :=
  ⟨rfl,
   (C1_send_failure_gives_502_and_never_upserts dceSampleEvent dceCfg lambadaCfg
      sendFailOracles .clientError rfl).1,
   rfl, rfl⟩

/-- C5: the minimal-shape validator synthesizes the event timestamp from
the clock: whenever the field checks pass, the computed
`event_cancel_date` is `now.isoformat()` and `event_cancel_date_dt` is
`now`; and the whole computation depends only on the payload's `id` and
`cancelReason` (and dict-ness), so two payloads differing only in
caller-supplied timestamp fields validate alike.  (Stated on the values
the validator computes for its result constructor, since the constructor
call itself raises — see C3's TypeError.) -/
theorem C5_event_timestamp_is_clock_not_caller
    (p : JVal) (now : Datetime) :
    (∀ a, services_validate_args p now = .ok a →
        a.event_cancel_date = now.isoformat ∧ a.event_cancel_date_dt = now)
    ∧ ∀ p2 : JVal, p.isObj = p2.isObj → p.get "id" = p2.get "id" →
        p.get "cancelReason" = p2.get "cancelReason" →
        services_validate_args p now = services_validate_args p2 now := by
  constructor
  · intro a h
    by_cases hobj : p.isObj = true
    · by_cases hid : truthyOpt (p.get "id") = true
      · rcases hcr : p.get "cancelReason" with _ | v
        · simp [services_validate_args, hobj, hid, hcr] at h
        · cases v with
          | str s =>
              by_cases hs : s = ""
              · simp [services_validate_args, hobj, hid, hcr, hs] at h
              · simp [services_validate_args, hobj, hid, hcr, hs] at h
                rw [← h]
                exact ⟨rfl, rfl⟩
          | null => simp [services_validate_args, hobj, hid, hcr, JVal.truthy] at h
          | bool b =>
              by_cases hb : b = true <;>
                simp [services_validate_args, hobj, hid, hcr, JVal.truthy, hb] at h
          | num n =>
              by_cases hn : (n != 0) = true <;>
                simp [services_validate_args, hobj, hid, hcr, JVal.truthy, hn] at h
          | arr xs =>
              by_cases hx : xs.isEmpty <;>
                simp [services_validate_args, hobj, hid, hcr, JVal.truthy, hx] at h
          | obj gs =>
              by_cases hx : gs.isEmpty <;>
                simp [services_validate_args, hobj, hid, hcr, JVal.truthy, hx] at h
      · simp only [Bool.not_eq_true] at hid
        simp [services_validate_args, hobj, hid] at h
    · simp only [Bool.not_eq_true] at hobj
      simp [services_validate_args, hobj] at h
  · intro p2 h1 h2 h3
    simp only [services_validate_args, h1, h2, h3]

/-- Witness for C5: two payloads differing only in a caller-supplied
`eventCancelDate` field validate to identical argument records, whose
timestamp is the clock's. -/
theorem C5_witness :
    services_validate_args
        (.obj [("id", .str "1234567890"), ("cancelReason", .str "duplicate invoice"),
               ("eventCancelDate", .str "1999-01-01T00:00:00Z")]) sampleNow =
      services_validate_args
        (.obj [("id", .str "1234567890"), ("cancelReason", .str "duplicate invoice"),
               ("eventCancelDate", .str "2049-12-31T23:59:59Z")]) sampleNow
    ∧ services_validate_args
        (.obj [("id", .str "1234567890"), ("cancelReason", .str "duplicate invoice"),
               ("eventCancelDate", .str "1999-01-01T00:00:00Z")]) sampleNow =
        .ok ⟨"1234567890", sampleNow.isoformat, sampleNow, "duplicate invoice", ""⟩
    ∧ (⟨"1234567890", sampleNow.isoformat, sampleNow, "duplicate invoice", ""⟩ :
          ServicesValidatedArgs).event_cancel_date = sampleNow.isoformat :=
  ⟨(C5_event_timestamp_is_clock_not_caller
      (.obj [("id", .str "1234567890"), ("cancelReason", .str "duplicate invoice"),
             ("eventCancelDate", .str "1999-01-01T00:00:00Z")]) sampleNow).2
      (.obj [("id", .str "1234567890"), ("cancelReason", .str "duplicate invoice"),
             ("eventCancelDate", .str "2049-12-31T23:59:59Z")]) rfl rfl rfl,
   rfl,
   ((C5_event_timestamp_is_clock_not_caller
      (.obj [("id", .str "1234567890"), ("cancelReason", .str "duplicate invoice"),
             ("eventCancelDate", .str "1999-01-01T00:00:00Z")]) sampleNow).1
      ⟨"1234567890", sampleNow.isoformat, sampleNow, "duplicate invoice", ""⟩ rfl).1⟩

/-- C10 counterexample: on the event whose body is the malformed JSON
string consisting of one opening brace, `_parse_event` raises a
JSONDecodeError instead of returning a dict, and the handler maps it to
500 — so the parse step can fail, contrary to the claim. -/
theorem C10_counterexample_parse_raises_on_malformed_body :
    parse_event malformedBodyEvent = .error (.jsonDecodeError "Expecting value")
    ∧ lambada_handler malformedBodyEvent lambadaCfg okOracles =
        (build_response 500 (.obj [("error", .str "Expecting value")]), []) :=
  ⟨rfl, rfl⟩

/-- C10 (amended): parsing returns a dict without raising when the event is
not a dict, lacks a body, has a dict body, or has an empty-string body
(which falls back to the empty object); but a non-empty string body on
which `json.loads` fails makes the parse step itself raise, and the handler
maps that to 500 — malformed bodies are rejected at the parse step, not
deferred to validation. -/
theorem C10_parse_fallbacks_and_malformed_bodies_raise
    (fs : List (String × JVal)) :
    (JVal.lookupField "body" fs = none → parse_event (.obj fs) = .ok (.obj fs))
    ∧ (∀ bs, JVal.lookupField "body" fs = some (.obj bs) →
        parse_event (.obj fs) = .ok (.obj bs))
    ∧ (JVal.lookupField "body" fs = some (.str "") → parse_event (.obj fs) = .ok (.obj []))
    ∧ (∀ v : JVal, v.isObj = false → parse_event v = .ok (.obj []))
    ∧ ∀ s m, JVal.lookupField "body" fs = some (.str s) → s ≠ "" →
        jsonLoads s = .error (.jsonDecodeError m) →
        ∀ (cfg : LambadaConfig) (o : Oracles),
          lambada_handler (.obj fs) cfg o =
            (build_response 500 (.obj [("error", .str m)]), []) := by
  refine ⟨?_, ?_, ?_, ?_, ?_⟩
  · intro h; simp [parse_event, h]
  · intro bs h; simp [parse_event, h]
  · intro h; simp [parse_event, h]; rfl
  · intro v hv; cases v <;> simp_all [parse_event, JVal.isObj]
  · intro s m hb hs hjson cfg o
    have hpre : lambada_precheck (.obj fs) cfg o.nowValidate =
        .error (.jsonDecodeError m) := by
      simp [lambada_precheck, parse_event, hb, hs, hjson]
    rw [lambada_handler_eq _ cfg o _ hpre]
    rfl

/-- Witness for C10's amended statement across its cases. -/
theorem C10_witness :
    parse_event (.obj [("x", .null)]) = .ok (.obj [("x", .null)])
    ∧ parse_event (.obj [("body", .str "")]) = .ok (.obj [])
    ∧ lambada_handler malformedBodyEvent lambadaCfg okOracles =
        (build_response 500 (.obj [("error", .str "Expecting value")]), []) :=
  ⟨(C10_parse_fallbacks_and_malformed_bodies_raise [("x", .null)]).1 rfl,
   (C10_parse_fallbacks_and_malformed_bodies_raise [("body", .str "")]).2.2.1 rfl,
   (C10_parse_fallbacks_and_malformed_bodies_raise
      [("body", .str "\x7b"), ("headers", sampleHeaders)]).2.2.2.2
      "\x7b" "Expecting value" rfl (by decide) rfl lambadaCfg okOracles⟩

/-- Every outcome of `_authenticate_request`: success, a 401
AuthorizationError, or (for a truthy non-string header value) an
AttributeError from `.startswith`. -/
theorem authenticate_request_cases (event : JVal) (token : String) :
    authenticate_request event token = .ok ()
    ∨ authenticate_request event token = .error (.authorizationError "Unauthorized" 401)
    ∨ ∃ m, authenticate_request event token = .error (.attributeError m) := by
  by_cases ht : token = ""
  · left; simp [authenticate_request, ht]
  · rcases hh : event.get "headers" with _ | v
    · right; left; simp [authenticate_request, ht, hh]
    · cases v with
      | obj hs =>
          rcases hA : JVal.pyOr ((JVal.lookupField "Authorization" hs).getD .null)
              ((JVal.lookupField "authorization" hs).getD .null) with _ | b | n | s | xs | gs
          · right; left; simp [authenticate_request, ht, hh, hA]
          · by_cases hb : b = true
            · right; right
              exact ⟨"object has no attribute startswith",
                by simp [authenticate_request, ht, hh, hA, hb, JVal.truthy]⟩
            · right; left; simp [authenticate_request, ht, hh, hA, hb, JVal.truthy]
          · by_cases hn : (n != 0) = true
            · right; right
              exact ⟨"object has no attribute startswith",
                by simp [authenticate_request, ht, hh, hA, hn, JVal.truthy]⟩
            · right; left
              simp only [bne_iff_ne, ne_eq, Decidable.not_not] at hn
              simp [authenticate_request, ht, hh, hA, hn, JVal.truthy]
          · by_cases hse : s = ""
            · right; left; simp [authenticate_request, ht, hh, hA, hse]
            · by_cases hsw : pyStartsWith s "Bearer " = true
              · by_cases heq : pyStrip (splitOnceRest s) = token
                · left; simp [authenticate_request, ht, hh, hA, hse, hsw, heq]
                · right; left; simp [authenticate_request, ht, hh, hA, hse, hsw, heq]
              · right; left; simp [authenticate_request, ht, hh, hA, hse, hsw]
          · by_cases hx : xs.isEmpty = true
            · right; left; simp [authenticate_request, ht, hh, hA, hx, JVal.truthy]
            · right; right
              exact ⟨"object has no attribute startswith",
                by simp [authenticate_request, ht, hh, hA, hx, JVal.truthy]⟩
          · by_cases hx : gs.isEmpty = true
            · right; left; simp [authenticate_request, ht, hh, hA, hx, JVal.truthy]
            · right; right
              exact ⟨"object has no attribute startswith",
                by simp [authenticate_request, ht, hh, hA, hx, JVal.truthy]⟩
      | null => right; left; simp [authenticate_request, ht, hh]
      | bool b => right; left; simp [authenticate_request, ht, hh]
      | num n => right; left; simp [authenticate_request, ht, hh]
      | str s => right; left; simp [authenticate_request, ht, hh]
      | arr xs => right; left; simp [authenticate_request, ht, hh]

/-- C6 counterexample: with token `secret` configured, the header
`Authorization: Bearer secret ` (trailing space) authenticates although it
is not equal to `Bearer secret` — the code strips whitespace around the
part after the first space, so acceptance is not exact-match on the
header. -/
theorem C6_counterexample_trailing_space_bearer_authenticates :
    authenticate_request trailingSpaceAuthEvent "secret" = .ok ()
    ∧ JVal.lookupField "Authorization" [("Authorization", .str "Bearer secret ")] =
        some (.str "Bearer secret ")
    ∧ "Bearer secret " ≠ "Bearer " ++ "secret" :=
  ⟨rfl, rfl, by decide⟩

/-- C6 (amended): with no token configured authentication is a no-op; with
a token configured it succeeds iff the `Authorization` header (falling back
to `authorization`) is a string starting with `Bearer ` whose remainder
after the first space, stripped of whitespace, equals the token; any other
string-or-absent header yields AuthorizationError 401 (a truthy non-string
value raises AttributeError instead, mapped to 500); and a 401 from
authentication makes the handler answer 401 with no effects, before the
validator runs. -/
theorem C6_bearer_authentication_amended (event : JVal) (token : String) :
    (authenticate_request event "" = .ok ())
    ∧ (token ≠ "" →
        (authenticate_request event token = .ok () ↔
          ∃ hs s, event.get "headers" = some (.obj hs)
            ∧ JVal.pyOr ((JVal.lookupField "Authorization" hs).getD .null)
                ((JVal.lookupField "authorization" hs).getD .null) = .str s
            ∧ pyStartsWith s "Bearer " = true
            ∧ pyStrip (splitOnceRest s) = token))
    ∧ (authenticate_request event token = .ok ()
        ∨ authenticate_request event token = .error (.authorizationError "Unauthorized" 401)
        ∨ ∃ m, authenticate_request event token = .error (.attributeError m))
    ∧ ∀ (cfg : LambadaConfig) (o : Oracles) (p : JVal) (msg : String),
        parse_event event = .ok p →
        authenticate_request event cfg.api_auth_token = .error (.authorizationError msg 401) →
        lambada_handler event cfg o = (build_response 401 (.obj [("error", .str msg)]), []) := by
  refine ⟨by simp [authenticate_request], ?_, authenticate_request_cases event token, ?_⟩
  · intro ht
    rcases hh : event.get "headers" with _ | v
    · simp [authenticate_request, ht, hh]
    · cases v with
      | obj hs =>
          rcases hA : JVal.pyOr ((JVal.lookupField "Authorization" hs).getD .null)
              ((JVal.lookupField "authorization" hs).getD .null) with _ | b | n | s | xs | gs
          · simp [authenticate_request, ht, hh, hA]
          · by_cases hb : b = true <;>
              simp [authenticate_request, ht, hh, hA, hb, JVal.truthy]
          · by_cases hn : (n != 0) = true
            · simp [authenticate_request, ht, hh, hA, hn, JVal.truthy]
            · simp only [bne_iff_ne, ne_eq, Decidable.not_not] at hn
              simp [authenticate_request, ht, hh, hA, hn, JVal.truthy]
          · by_cases hse : s = ""
            · subst hse
              simp [authenticate_request, ht, hh, hA,
                show pyStartsWith "" "Bearer " = false from rfl]
            · by_cases hsw : pyStartsWith s "Bearer " = true
              · by_cases heq : pyStrip (splitOnceRest s) = token
                · simp [authenticate_request, ht, hh, hA, hse, hsw, heq]
                · simp [authenticate_request, ht, hh, hA, hse, hsw, heq]
              · simp [authenticate_request, ht, hh, hA, hse, hsw]
          · by_cases hx : xs.isEmpty = true <;>
              simp [authenticate_request, ht, hh, hA, hx, JVal.truthy]
          · by_cases hx : gs.isEmpty = true <;>
              simp [authenticate_request, ht, hh, hA, hx, JVal.truthy]
      | null => simp [authenticate_request, ht, hh]
      | bool b => simp [authenticate_request, ht, hh]
      | num n => simp [authenticate_request, ht, hh]
      | str s => simp [authenticate_request, ht, hh]
      | arr xs => simp [authenticate_request, ht, hh]
  · intro cfg o p msg hparse hauth
    have hpre : lambada_precheck event cfg o.nowValidate =
        .error (.authorizationError msg 401) := by
      simp [lambada_precheck, hparse, hauth]
    rw [lambada_handler_eq _ _ _ _ hpre]
    rfl

/-- Witness for C6: the no-op mode at the trailing-space event, and the
amended acceptance condition concluding success for that event. -/
theorem C6_witness :
    authenticate_request trailingSpaceAuthEvent "" = .ok ()
    ∧ authenticate_request trailingSpaceAuthEvent "secret" = .ok () :=
  ⟨(C6_bearer_authentication_amended trailingSpaceAuthEvent "").1,
   ((C6_bearer_authentication_amended trailingSpaceAuthEvent "secret").2.1 (by decide)).mpr
     ⟨[("Authorization", .str "Bearer secret ")], "Bearer secret ", rfl, rfl, rfl, rfl⟩⟩

/-- C7 counterexample: headers carrying `client-id: ""` and
`client_id: "x"` are rejected with 401, although they contain an accepted
alias (`client_id`) with the non-empty string value `"x"` — the first alias
in the fixed order wins even when its value is empty. -/
theorem C7_counterexample_first_alias_shadows_nonempty_second :
    extract_client_id twoAliasEvent =
      .error (.authorizationError "clientId header is required" 401)
    ∧ JVal.lookupField "client_id" twoAliasHeaders = some (.str "x")
    ∧ "x" ≠ "" :=
  ⟨rfl, rfl, by decide⟩

/-- C7 (amended): client-id extraction lowercases the header names (later
duplicates overriding earlier ones) and takes the first alias present in
the fixed order `client-id, client_id, clientid, x-client-id`; if that
candidate is a non-empty string it becomes the client id, and if no alias
is present, or the selected candidate is empty or not a string, the result
is AuthorizationError 401 — which the handler maps to 401 with no
effects. -/
theorem C7_client_id_alias_priority (event : JVal) :
    (client_id_aliases.findSome?
        (fun k => JVal.lookupField k (normalize_headers ((event.get "headers").getD .null)))
          = none →
      extract_client_id event = .error (.authorizationError "clientId header is required" 401))
    ∧ (∀ s, client_id_aliases.findSome?
        (fun k => JVal.lookupField k (normalize_headers ((event.get "headers").getD .null)))
          = some (.str s) → s ≠ "" →
      extract_client_id event = .ok s)
    ∧ (∀ v, client_id_aliases.findSome?
        (fun k => JVal.lookupField k (normalize_headers ((event.get "headers").getD .null)))
          = some v → (∀ s, v = .str s → s = "") →
      extract_client_id event = .error (.authorizationError "clientId header is required" 401))
    ∧ ∀ (cfg : LambadaConfig) (o : Oracles) (p : JVal) (msg : String),
        parse_event event = .ok p →
        authenticate_request event cfg.api_auth_token = .ok () →
        extract_client_id event = .error (.authorizationError msg 401) →
        lambada_handler event cfg o = (build_response 401 (.obj [("error", .str msg)]), []) := by
  refine ⟨?_, ?_, ?_, ?_⟩
  · intro h; simp [extract_client_id, h]
  · intro s h hs; simp [extract_client_id, h, hs]
  · intro v h hv
    cases v with
    | str s => have := hv s rfl; subst this; simp [extract_client_id, h]
    | null => simp [extract_client_id, h]
    | bool b => simp [extract_client_id, h]
    | num n => simp [extract_client_id, h]
    | arr xs => simp [extract_client_id, h]
    | obj gs => simp [extract_client_id, h]
  · intro cfg o p msg hparse hauth hext
    have hpre : lambada_precheck event cfg o.nowValidate =
        .error (.authorizationError msg 401) := by
      simp [lambada_precheck, hparse, hauth, hext]
    rw [lambada_handler_eq _ _ _ _ hpre]
    rfl

/-- Witness for C7: the sample headers (casing `Client-Id`) yield the
client id, and an event with no headers yields 401. -/
theorem C7_witness :
    extract_client_id minimalScenarioEvent = .ok "partner-123"
    ∧ extract_client_id (.obj []) =
        .error (.authorizationError "clientId header is required" 401) :=
  ⟨(C7_client_id_alias_priority minimalScenarioEvent).2.1 "partner-123" rfl (by decide),
   (C7_client_id_alias_priority (.obj [])).1 rfl⟩

@[simp] theorem pyStr_str (s : String) : (JVal.str s).pyStr = s := rfl

/-- C9 counterexample: a payload whose caller timestamp
(2023-01-01T00:00:00+00:00) is far older than the 60-minute deadline but
which lacks `clientId` fails with "clientId is required", not the window
message — field errors precede the deadline check, and the window message
itself is "Cancellation window expired for the provided timestamp". -/
theorem C9_counterexample_field_error_preempts_window :
    ensure_isoformat (.str "2023-01-01T00:00:00+00:00") = .ok oldTs
    ∧ oldTs.instantUsec < deadlineInstantUsec sampleNow 60
    ∧ dce_validate_payload dceExpiredNoClientPayload (some 60) sampleNow =
        .error (.validationError "clientId is required")
    ∧ "clientId is required" ≠ "cancellation window expired" :=
  ⟨rfl, by decide, rfl, by decide⟩

/-- C9 (amended): for every envelope payload that passes every other
validation check, a caller timestamp parsing to an instant older than
`now - deadline` minutes fails validation with "Cancellation window
expired for the provided timestamp" and makes the handler answer 400 with
no effects; a timestamp at or after the deadline leaves validation exactly
as if no deadline were configured, hence accepted. -/
theorem C9_deadline_window_on_otherwise_valid_payloads
    (p : JVal) (now : Datetime) (m : Int) (efs ifs : List (String × JVal))
    (dv cv md : JVal) (ts cid : String) (t : Datetime)
    (hobj : p.isObj = true)
    (hdce : p.pyGet "dceId" = some dv) (hdvt : dv.truthy = true)
    (hev : p.pyGet "event" = some (.obj efs))
    (hts : p.pyGet "timestamp" = some (.str ts)) (htst : ts ≠ "")
    (hiso : ensure_isoformat (.str ts) = .ok t)
    (hcid : p.pyGet "clientId" = some (.str cid)) (hcidne : cid ≠ "")
    (hcode : (JVal.obj efs).pyGet "code" = some cv) (hcv : cv.pyStr = "110111")
    (hsch : (match (JVal.obj efs).pyGet "schemaVersion" with
             | some (.str s) => s = "1.00" || s = "1.01"
             | _ => false) = true)
    (hseq : (match (JVal.obj efs).pyGet "sequenceNumber" with
             | some (.num n) => n ≥ 1
             | some (.bool b) => b
             | _ => false) = true)
    (hre : truthyOpt ((JVal.obj efs).pyGet "reason") = true)
    (hpr : truthyOpt ((JVal.obj efs).pyGet "protocol") = true)
    (hiss : p.pyGet "issuer" = some (.obj ifs))
    (hcn : truthyOpt ((JVal.obj ifs).pyGet "cnpj") = true)
    (hmd : (match p.pyGet "metadata" with
            | some v => if v.truthy then v else JVal.obj []
            | none => JVal.obj []) = md)
    (hmdo : md.isObj = true) :
    (t.instantUsec < deadlineInstantUsec now m →
      dce_validate_payload p (some m) now =
        .error (.validationError "Cancellation window expired for the provided timestamp"))
    ∧ (¬ t.instantUsec < deadlineInstantUsec now m →
        dce_validate_payload p (some m) now = dce_validate_payload p none now
        ∧ ∃ v, dce_validate_payload p none now = .ok v ∧ v.timestamp_dt = t)
    ∧ (t.instantUsec < deadlineInstantUsec now m →
       ∀ (event : JVal) (cfg : EnvConfig) (o : Oracles),
         parse_event event = .ok p →
         authenticate_request event cfg.api_auth_token = .ok () →
         cfg.cancellation_deadline_minutes = m →
         o.nowValidate = now →
         dce_handler event cfg o =
           (build_response 400 (.obj [("error",
              .str "Cancellation window expired for the provided timestamp")]), [])) := by
  have herr : t.instantUsec < deadlineInstantUsec now m →
      dce_validate_payload p (some m) now =
        .error (.validationError "Cancellation window expired for the provided timestamp") := by
    intro hold
    simp [dce_validate_payload, hobj, hdce, hdvt, hev, hts, htst, hiso, hcid, hcidne, hcode,
      hcv, hsch, hseq, hre, hpr, hiss, hcn, hmd, hmdo, hold]
  refine ⟨herr, ?_, ?_⟩
  · intro hafter
    have hok : dce_validate_payload p none now =
        .ok { dce_id := dv.pyStr,
              event := .obj [("code", .str "110111"),
                             ("schemaVersion", ((JVal.obj efs).pyGet "schemaVersion").getD .null),
                             ("sequenceNumber", ((JVal.obj efs).pyGet "sequenceNumber").getD .null),
                             ("reason", .str (((JVal.obj efs).pyGet "reason").getD .null).pyStr),
                             ("protocol", .str (((JVal.obj efs).pyGet "protocol").getD .null).pyStr)],
              timestamp := ts, timestamp_dt := t, issuer := .obj ifs,
              metadata := md, client_id := cid } := by
      simp [dce_validate_payload, hobj, hdce, hdvt, hev, hts, htst, hiso, hcid, hcidne, hcode,
        hcv, hsch, hseq, hre, hpr, hiss, hcn, hmd, hmdo]
    have hok2 : dce_validate_payload p (some m) now =
        .ok { dce_id := dv.pyStr,
              event := .obj [("code", .str "110111"),
                             ("schemaVersion", ((JVal.obj efs).pyGet "schemaVersion").getD .null),
                             ("sequenceNumber", ((JVal.obj efs).pyGet "sequenceNumber").getD .null),
                             ("reason", .str (((JVal.obj efs).pyGet "reason").getD .null).pyStr),
                             ("protocol", .str (((JVal.obj efs).pyGet "protocol").getD .null).pyStr)],
              timestamp := ts, timestamp_dt := t, issuer := .obj ifs,
              metadata := md, client_id := cid } := by
      simp [dce_validate_payload, hobj, hdce, hdvt, hev, hts, htst, hiso, hcid, hcidne, hcode,
        hcv, hsch, hseq, hre, hpr, hiss, hcn, hmd, hmdo, hafter]
    exact ⟨hok2.trans hok.symm, ⟨_, hok, rfl⟩⟩
  · intro hold event cfg o hparse hauth hm hnow
    have hpre : dce_precheck event cfg o.nowValidate o.freshUuid =
        .error (.validationError "Cancellation window expired for the provided timestamp") := by
      simp [dce_precheck, hparse, hauth, hm, hnow, herr hold]
    simp [dce_handler, hpre]
    rfl

/-- Witness for C9 at the expired envelope payload. -/
theorem C9_witness :
    dce_validate_payload dceExpiredPayload (some 60) sampleNow =
      .error (.validationError "Cancellation window expired for the provided timestamp")
    ∧ dce_handler dceExpiredEvent dceCfg60 okOracles =
        (build_response 400 (.obj [("error",
           .str "Cancellation window expired for the provided timestamp")]), []) := by
  have h := C9_deadline_window_on_otherwise_valid_payloads dceExpiredPayload sampleNow 60
    [("code", .str "110111"), ("schemaVersion", .str "1.00"), ("sequenceNumber", .num 1),
     ("reason", .str "Cancelamento por duplicidade"), ("protocol", .str "123456789012345")]
    [("cnpj", .str "12345678000199")]
    (.str "DCE123") (.str "110111") (.obj [("state", .str "RS")])
    "2023-01-01T00:00:00+00:00" "partner-123" oldTs
    rfl rfl (by decide) rfl rfl (by decide) rfl rfl (by decide) rfl rfl rfl rfl rfl rfl rfl rfl rfl rfl
  exact ⟨h.1 (by decide), h.2.2 (by decide) dceExpiredEvent dceCfg60 okOracles rfl rfl rfl rfl⟩

/-- C8: for every request the envelope pipeline completes successfully
(all stages pass and both AWS calls succeed), one single correlation id —
the `X-Correlation-Id` header if truthy, else the payload's
`correlationId`, else the fresh uuid — is attached to the queue message
body and its `CorrelationId` attribute, written into the status record's
`:correlationId` value, and returned in the 201 response body, all equal. -/
theorem C8_single_correlation_id_everywhere
    (event p : JVal) (cfg : EnvConfig) (o : Oracles) (v : DceValidatedPayload) (corr : JVal)
    (hparse : parse_event event = .ok p)
    (hauth : authenticate_request event cfg.api_auth_token = .ok ())
    (hval : dce_validate_payload p (some cfg.cancellation_deadline_minutes) o.nowValidate = .ok v)
    (hallow : cfg.allowed_client_ids.isEmpty = true
      ∨ cfg.allowed_client_ids.contains v.client_id = true)
    (hcorr : get_correlation_id event p o.freshUuid = .ok corr)
    (hsend : o.sendResult = .ok ()) (hupd : o.updateResult = .ok ()) :
    dce_handler event cfg o =
      (build_response 201 (.obj [("message", .str "Cancellation received"),
                                 ("dceId", .str v.dce_id), ("correlationId", corr)]),
       [enqueue_effect cfg.sqs_queue_url (dce_enqueue_payload v) corr,
        dce_upsert_effect cfg (dce_enqueue_payload v) corr o.nowUpsert])
    ∧ (enqueue_message_body (dce_enqueue_payload v) corr).get "correlationId" = some corr
    ∧ JVal.lookupField ":correlationId"
        (dce_upsert_values (dce_enqueue_payload v) corr o.nowUpsert) = some corr
    ∧ (dce_handler event cfg o).1.body.get "correlationId" = some corr
    ∧ ∀ efs2 hfs, event = .obj efs2 →
        (JVal.lookupField "headers" efs2).getD (.obj []) = .obj hfs →
        corr = JVal.pyOr ((JVal.lookupField "X-Correlation-Id" hfs).getD .null)
          (JVal.pyOr ((p.get "correlationId").getD .null) (.str o.freshUuid)) := by
  have hpre : dce_precheck event cfg o.nowValidate o.freshUuid = .ok (v, corr) := by
    rcases hallow with h | h
    · simp [dce_precheck, hparse, hauth, hval, hcorr, h]
    · simp [dce_precheck, hparse, hauth, hval, hcorr, h]
      intro _
      exact List.mem_of_elem_eq_true h
  have hH : dce_handler event cfg o =
      (build_response 201 (.obj [("message", .str "Cancellation received"),
                                 ("dceId", .str v.dce_id), ("correlationId", corr)]),
       [enqueue_effect cfg.sqs_queue_url (dce_enqueue_payload v) corr,
        dce_upsert_effect cfg (dce_enqueue_payload v) corr o.nowUpsert]) := by
    simp [dce_handler, hpre, hsend, hupd]
  refine ⟨hH, rfl, rfl, ?_, ?_⟩
  · rw [hH]; rfl
  · intro efs2 hfs heq hhd
    subst heq
    simp [get_correlation_id, hhd] at hcorr
    exact hcorr.symm

/-- Witness for C8 at the envelope sample request (no header or payload
correlation id, so the fresh uuid is used everywhere). -/
theorem C8_witness :
    (dce_handler dceSampleEvent dceCfg okOracles).1.body.get "correlationId" =
      some (.str "fresh-uuid")
    ∧ (dce_handler dceSampleEvent dceCfg okOracles).1.statusCode = 201 :=
  ⟨(C8_single_correlation_id_everywhere dceSampleEvent dceSamplePayload dceCfg okOracles
      ⟨"DCE123",
       .obj [("code", .str "110111"), ("schemaVersion", .str "1.00"), ("sequenceNumber", .num 1),
             ("reason", .str "Cancelamento por duplicidade"),
             ("protocol", .str "123456789012345")],
       "2024-06-01T11:00:00+00:00", ⟨2024, 6, 1, 11, 0, 0, 0, 0⟩,
       .obj [("cnpj", .str "12345678000199")], .obj [("state", .str "RS")], "partner-123"⟩
      (.str "fresh-uuid") rfl rfl rfl (Or.inr rfl) rfl rfl rfl).2.2.2.1,
   rfl⟩
